import Mathlib

/-!
Verification of the `cloud_architecture_viz.py` script: a shallow embedding
of its two diagram builders (`create_matplotlib_visualization`,
`create_interactive_visualization`) and its orchestration entry point
(`main`), with theorems settling the specification's claims.

Conventions of the embedding:
- Python dicts used as ordered tables become association lists
  (`List (String × _)`) preserving insertion order.
- Fallible dict lookups (`d[k]`, which raise `KeyError` in Python when the
  key is absent) become `Except String _` values carrying a
  `"KeyError: " ++ key` message.
- The networkx `DiGraph` is modelled by its observable content: the node
  list in insertion order, the per-node attribute table, and the edge list
  in insertion order; `add_edge` silently inserts missing endpoint nodes
  (without attributes), exactly as networkx does.
- Python list comprehensions over fallible lookups become `mapME`, a
  left-to-right Except-valued map that stops at the first failure.
-/

namespace CloudViz

/-- Left-to-right fallible map: the image of a Python list comprehension
whose body may raise; it fails at the first element whose body fails. -/
def mapME (f : α → Except String β) : List α → Except String (List β)
  | [] => .ok []
  | a :: l =>
    match f a with
    | .error e => .error e
    | .ok b =>
      match mapME f l with
      | .error e => .error e
      | .ok bs => .ok (b :: bs)

/-- Attributes attached to each node of the interactive graph
(`nodes` dict of `create_interactive_visualization`): a position,
a color string and a marker size. -/
structure NodeAttrs where
  pos : Int × Int
  color : String
  size : Nat
deriving DecidableEq, Repr

/-- Observable content of a networkx `DiGraph`: nodes in insertion order,
node attribute table (only nodes added with attributes appear), edges in
insertion order. -/
structure DiGraph where
  nodeList : List String
  nodeAttrs : List (String × NodeAttrs)
  edgeList : List (String × String)
deriving DecidableEq, Repr

def DiGraph.empty : DiGraph := ⟨[], [], []⟩

/-- `G.add_node(n, **attrs)`: records the node (appending if new) with its
attributes. -/
def DiGraph.add_node (G : DiGraph) (n : String) (a : NodeAttrs) : DiGraph :=
  if n ∈ G.nodeList then
    { G with nodeAttrs := G.nodeAttrs.map (fun p => if p.1 = n then (n, a) else p) }
  else
    { G with nodeList := G.nodeList ++ [n], nodeAttrs := G.nodeAttrs ++ [(n, a)] }

/-- networkx silently inserts an edge endpoint as an attribute-less node
when it is not yet in the graph. -/
def DiGraph.ensure_node (G : DiGraph) (n : String) : DiGraph :=
  if n ∈ G.nodeList then G else { G with nodeList := G.nodeList ++ [n] }

/-- `G.add_edge(u, v)`: inserts both endpoints if missing, then the edge
if not already present. -/
def DiGraph.add_edge (G : DiGraph) (e : String × String) : DiGraph :=
  let G1 := (G.ensure_node e.1).ensure_node e.2
  if e ∈ G1.edgeList then G1 else { G1 with edgeList := G1.edgeList ++ [e] }

/-- `G.add_edges_from(edges)`. -/
def DiGraph.add_edges_from (G : DiGraph) (es : List (String × String)) : DiGraph :=
  es.foldl DiGraph.add_edge G

/-- The fixed node table of `create_interactive_visualization`
(lines 119–130 of the source). -/
def nodes : List (String × NodeAttrs) :=
  [("users", ⟨(1, 1), "#4CAF50", 30⟩),
   ("cdn", ⟨(1, 3), "#607D8B", 25⟩),
   ("load_balancer", ⟨(2, 5), "#607D8B", 25⟩),
   ("web_server_1", ⟨(4, 6), "#2196F3", 25⟩),
   ("web_server_2", ⟨(4, 4), "#2196F3", 25⟩),
   ("api_gateway", ⟨(4, 2), "#607D8B", 25⟩),
   ("app_server", ⟨(6, 5), "#FF9800", 30⟩),
   ("database", ⟨(8, 6), "#9C27B0", 30⟩),
   ("cache", ⟨(8, 4), "#F44336", 25⟩),
   ("storage", ⟨(6, 2), "#795548", 25⟩)]

/-- The fixed edge list of `create_interactive_visualization`
(lines 137–151 of the source): 13 directed pairs. -/
def edges : List (String × String) :=
  [("users", "cdn"),
   ("users", "load_balancer"),
   ("users", "api_gateway"),
   ("cdn", "load_balancer"),
   ("load_balancer", "web_server_1"),
   ("load_balancer", "web_server_2"),
   ("web_server_1", "app_server"),
   ("web_server_2", "app_server"),
   ("app_server", "database"),
   ("app_server", "cache"),
   ("app_server", "storage"),
   ("api_gateway", "storage"),
   ("api_gateway", "app_server")]

/-- Fallible Python dict lookup `tbl[n]`, raising `KeyError` on a missing
key. -/
def dictGet (tbl : List (String × NodeAttrs)) (n : String) : Except String NodeAttrs :=
  match tbl.lookup n with
  | some a => .ok a
  | none => .error ("KeyError: " ++ n)

/-- `s.replace('_', ' ')` for the single-character arguments used by the
script. -/
def underscoreToSpace (s : String) : String :=
  ⟨s.data.map (fun c => if c = '_' then ' ' else c)⟩

/-- Character stream of Python's `str.title()`: a letter is uppercased
when the previous character is not a letter, lowercased otherwise. -/
def pyTitleAux : Bool → List Char → List Char
  | _, [] => []
  | prevAlpha, c :: cs =>
    if c.isAlpha then
      (if prevAlpha then c.toLower else c.toUpper) :: pyTitleAux true cs
    else
      c :: pyTitleAux false cs

/-- Python's `str.title()` (for the ASCII identifiers used here). -/
def pyTitle (s : String) : String := ⟨pyTitleAux false s.data⟩

/-- The content of the Plotly figure built by
`create_interactive_visualization`: the node iteration order and edge list
the traces are built from, the edge trace's coordinate streams (with
`None` separators), and the node trace's coordinates, colors, sizes and
hover labels. -/
structure PlotlyFigure where
  nodeIds : List String
  renderedEdges : List (String × String)
  edge_x : List (Option Int)
  edge_y : List (Option Int)
  node_x : List Int
  node_y : List Int
  colors : List String
  sizes : List Nat
  text : List String
deriving DecidableEq, Repr

/-- Lines 116–153 of the source: the networkx graph after
`G.add_node(node, **attrs)` for each table entry and
`G.add_edges_from(edges)`. -/
def build_graph (tbl : List (String × NodeAttrs)) (es : List (String × String)) : DiGraph :=
  (tbl.foldl (fun g p => g.add_node p.1 p.2) DiGraph.empty).add_edges_from es

/-- `colors = [nodes[node]['color'] for node in G.nodes()]` (line 157). -/
def get_colors (tbl : List (String × NodeAttrs)) (ns : List String) :
    Except String (List String) :=
  mapME (fun n => do pure (← dictGet tbl n).color) ns

/-- `sizes = [nodes[node]['size'] for node in G.nodes()]` (line 158). -/
def get_sizes (tbl : List (String × NodeAttrs)) (ns : List String) :
    Except String (List Nat) :=
  mapME (fun n => do pure (← dictGet tbl n).size) ns

/-- The per-edge endpoint positions of the edge trace loop
(lines 163–167): `x0, y0 = pos[edge[0]]; x1, y1 = pos[edge[1]]`. -/
def edge_segments (pos : List (String × NodeAttrs)) (es : List (String × String)) :
    Except String (List ((Int × Int) × (Int × Int))) :=
  mapME (fun e => do
    let p0 := (← dictGet pos e.1).pos
    let p1 := (← dictGet pos e.2).pos
    pure (p0, p1)) es

/-- `node_x = [pos[node][0] for node in G.nodes()]` (line 177). -/
def node_xs (pos : List (String × NodeAttrs)) (ns : List String) :
    Except String (List Int) :=
  mapME (fun n => do pure (← dictGet pos n).pos.1) ns

/-- `node_y = [pos[node][1] for node in G.nodes()]` (line 178). -/
def node_ys (pos : List (String × NodeAttrs)) (ns : List String) :
    Except String (List Int) :=
  mapME (fun n => do pure (← dictGet pos n).pos.2) ns

/-- Body of `create_interactive_visualization` (lines 112–220 of the
source), parametric in the node table and edge list: builds the networkx
graph, extracts positions and per-node colors/sizes by dict lookup in the
graph's node order, builds the edge trace coordinate streams from each
edge's endpoint positions, then the node trace coordinates and labels. -/
def create_interactive_core (tbl : List (String × NodeAttrs))
    (es : List (String × String)) : Except String PlotlyFigure := do
  let G := build_graph tbl es
  -- pos = nx.get_node_attributes(G, 'pos'): only nodes added with attributes
  let pos := G.nodeAttrs
  let colors ← get_colors tbl G.nodeList
  let sizes ← get_sizes tbl G.nodeList
  -- edge trace: for each edge, [x0, x1, None] / [y0, y1, None]
  let segs ← edge_segments pos G.edgeList
  let edge_x := segs.foldl (fun acc s => acc ++ [some s.1.1, some s.2.1, none]) []
  let edge_y := segs.foldl (fun acc s => acc ++ [some s.1.2, some s.2.2, none]) []
  let node_x ← node_xs pos G.nodeList
  let node_y ← node_ys pos G.nodeList
  -- hover labels: node.replace('_', ' ').title()
  let text := G.nodeList.map (fun n => pyTitle (underscoreToSpace n))
  pure ⟨G.nodeList, G.edgeList, edge_x, edge_y, node_x, node_y, colors, sizes, text⟩

/-- `create_interactive_visualization()` applied to the script's fixed
tables. -/
def create_interactive_visualization : Except String PlotlyFigure :=
  create_interactive_core nodes edges

instance {ε α : Type} [DecidableEq ε] [DecidableEq α] : DecidableEq (Except ε α) := fun a b =>
  match a, b with
  | .ok x, .ok y => if h : x = y then .isTrue (by simp [h]) else .isFalse (by simp [h])
  | .error x, .error y => if h : x = y then .isTrue (by simp [h]) else .isFalse (by simp [h])
  | .ok _, .error _ => .isFalse (by simp)
  | .error _, .ok _ => .isFalse (by simp)

/-! ## The static matplotlib builder -/

/-- One entry of the static component table: position, size, label and
color key. -/
structure Component where
  x : Rat
  y : Rat
  w : Rat
  h : Rat
  label : String
  color_key : String
deriving DecidableEq, Repr

/-- One entry of the static connection table: literal start and end
coordinates of an arrow. -/
structure Conn where
  sx : Rat
  sy : Rat
  ex : Rat
  ey : Rat
deriving DecidableEq, Repr

/-- A `matplotlib.patches.Rectangle` added to the axes: anchor, size,
border width and color, fill color, line style and opacity. -/
structure RectOp where
  x : Rat
  y : Rat
  w : Rat
  h : Rat
  lw : Nat
  edgecolor : String
  facecolor : String
  linestyle : String
  alpha : Rat
deriving DecidableEq, Repr

/-- An `ax.text` call: position, text and alignment. -/
structure TextOp where
  x : Rat
  y : Rat
  txt : String
  ha : String
  va : String
deriving DecidableEq, Repr

/-- An `ax.annotate` arrow: drawn from `(sx, sy)` to `(ex, ey)`. -/
structure ArrowOp where
  sx : Rat
  sy : Rat
  ex : Rat
  ey : Rat
  color : String
  lw : Rat
deriving DecidableEq, Repr

/-- Content of the figure built by `create_matplotlib_visualization`:
the cloud boundary rectangle and its title, one rectangle and one label
per component, one arrow per connection, and the legend entries. -/
structure StaticFig where
  cloudRect : RectOp
  cloudTitle : TextOp
  componentRects : List RectOp
  componentLabels : List TextOp
  arrows : List ArrowOp
  legend : List (String × String)
deriving DecidableEq, Repr

/-- The category→color mapping of `create_matplotlib_visualization`
(lines 35–43 of the source). -/
def static_colors : List (String × String) :=
  [("user", "#4CAF50"),
   ("web", "#2196F3"),
   ("app", "#FF9800"),
   ("db", "#9C27B0"),
   ("cache", "#F44336"),
   ("storage", "#795548"),
   ("network", "#607D8B")]

/-- The fixed component table of `create_matplotlib_visualization`
(lines 54–66 of the source): 10 entries. -/
def components : List Component :=
  [⟨1, 0.2, 1.2, 0.6, "Users", "user"⟩,
   ⟨1, 5.5, 1.5, 0.8, "Load Balancer", "network"⟩,
   ⟨3.5, 6, 1.5, 0.6, "Web Server 1", "web"⟩,
   ⟨3.5, 5, 1.5, 0.6, "Web Server 2", "web"⟩,
   ⟨6, 5.5, 1.5, 0.8, "App Server", "app"⟩,
   ⟨8, 6, 1.2, 0.6, "Database", "db"⟩,
   ⟨8, 4.5, 1.2, 0.6, "Redis Cache", "cache"⟩,
   ⟨6, 3, 1.5, 0.8, "File Storage", "storage"⟩,
   ⟨3.5, 2, 1.5, 0.6, "API Gateway", "network"⟩,
   ⟨1, 2.5, 1.5, 0.6, "CDN", "network"⟩]

/-- The fixed connection table of `create_matplotlib_visualization`
(lines 78–92 of the source): 12 literal coordinate quadruples. -/
def connections : List Conn :=
  [⟨1.6, 0.8, 1.7, 5.5⟩,
   ⟨2.5, 5.9, 3.5, 6.2⟩,
   ⟨2.5, 5.7, 3.5, 5.2⟩,
   ⟨5, 6.2, 6, 5.9⟩,
   ⟨5, 5.2, 6, 5.7⟩,
   ⟨7.5, 5.9, 8, 6.2⟩,
   ⟨7.5, 5.7, 8, 4.9⟩,
   ⟨6.7, 5.5, 6.7, 3.8⟩,
   ⟨1.6, 0.8, 3.5, 2.2⟩,
   ⟨1.6, 0.8, 1.7, 2.5⟩,
   ⟨2.5, 2.8, 3.5, 2.4⟩,
   ⟨5, 2.2, 6, 3.2⟩]

/-- Fallible color lookup `colors[color_key]` of the rectangle-drawing
loop. -/
def colorGet (tbl : List (String × String)) (k : String) : Except String String :=
  match tbl.lookup k with
  | some v => .ok v
  | none => .error ("KeyError: " ++ k)

/-- Body of the component-drawing loop (lines 69–75 of the source): one
filled, black-bordered rectangle at the entry's position and size, and
one label centered in it. -/
def draw_component (tbl : List (String × String)) (c : Component) :
    Except String (RectOp × TextOp) := do
  let fc ← colorGet tbl c.color_key
  pure (⟨c.x, c.y, c.w, c.h, 2, "black", fc, "-", 0.7⟩,
        ⟨c.x + c.w / 2, c.y + c.h / 2, c.label, "center", "center"⟩)

/-- The connection-drawing loop (lines 94–96 of the source): one arrow per
entry, endpoints taken verbatim from the entry. -/
def draw_connections (conns : List Conn) : List ArrowOp :=
  conns.map (fun c => ⟨c.sx, c.sy, c.ex, c.ey, "darkgray", 1.5⟩)

/-- Body of `create_matplotlib_visualization` (lines 27–110 of the
source), parametric in the three fixed tables. -/
def create_matplotlib_core (tbl : List (String × String))
    (comps : List Component) (conns : List Conn) : Except String StaticFig := do
  let pairs ← mapME (draw_component tbl) comps
  pure { cloudRect := ⟨0.5, 1, 9, 6, 2, "lightblue", "lightcyan", "--", 0.3⟩,
         cloudTitle := ⟨5, 7.5, "Cloud Infrastructure", "center", "baseline"⟩,
         componentRects := pairs.map Prod.fst,
         componentLabels := pairs.map Prod.snd,
         arrows := draw_connections conns,
         legend := tbl.map (fun p => (p.2, pyTitle p.1)) }

/-- `create_matplotlib_visualization()` applied to the script's fixed
tables. -/
def create_matplotlib_visualization : Except String StaticFig :=
  create_matplotlib_core static_colors components connections

/-! ## The orchestration entry point `main`

The filesystem, the availability of the plotting libraries, the outcome of
each write, and the clock are modelled as an explicit environment; `main`
returns the list of pipeline steps it attempted, the lines it printed, and
the final filesystem. Python exceptions inside the `try` block become a
`PyError` value threaded to the single outermost handler. -/

/-- A Python exception as `main` distinguishes them: an `ImportError` or
any other `Exception`. -/
inductive PyError
  | importError (msg : String)
  | exception (msg : String)
deriving DecidableEq, Repr

/-- The observable filesystem: existing directories and written files
(`lookup` returns a file's most recent content). -/
structure FS where
  dirs : List String
  files : List (String × String)
deriving DecidableEq, Repr

/-- The run environment: fixed paths, the timestamp the run observes, and
whether each external effect succeeds. -/
structure Env where
  tempdir : String
  cwd : String
  timestamp : String
  libsAvailable : Bool
  savefigOk : Bool
  htmlWriteOk : Bool
  browserOk : Bool

/-- The externally visible pipeline steps of `main`'s `try` block. -/
inductive Step
  | genStatic
  | saveStatic
  | genInteractive
  | makeDocsDir
  | writeHtml
  | openBrowser
deriving DecidableEq, Repr

/-- The `import` statements at the top of the script, observed at the
start of the run: raise `ImportError` when a required library is
unavailable. -/
def import_libraries (env : Env) : Except PyError Unit :=
  if env.libsAvailable then .ok () else .error (.importError "No module named plotly")

/-- `fig.savefig(path, dpi=300, bbox_inches='tight')`: writes the raster
file, raising an `OSError`-like exception if the write is not permitted. -/
def savefig (env : Env) (fs : FS) (path : String) : Except PyError FS :=
  if env.savefigOk then .ok { fs with files := (path, "PNG") :: fs.files }
  else .error (.exception ("Permission denied: " ++ path))

/-- `os.makedirs(d, exist_ok=True)`: creates the directory if absent and
never fails when it already exists. -/
def makedirs_exist_ok (fs : FS) (d : String) : FS :=
  if d ∈ fs.dirs then fs else { fs with dirs := fs.dirs ++ [d] }

/-- `open(path, 'w')` + `f.write(content)`: writes the HTML file, raising
an `OSError`-like exception if the write is not permitted. -/
def write_text_file (env : Env) (fs : FS) (path content : String) : Except PyError FS :=
  if env.htmlWriteOk then .ok { fs with files := (path, content) :: fs.files }
  else .error (.exception ("Permission denied: " ++ path))

/-- Modelled from the spec: `plotly.offline.plot(fig, output_type='div',
include_plotlyjs=True)`, the external "serialize figure to embeddable
markup" collaborator (§6); modelled as a deterministic serialization of
the figure. -/
def pyo_plot (fig : PlotlyFigure) : String :=
  "<div class=\"plotly-graph-div\">" ++ String.intercalate " " fig.text ++ "</div>"

/-- Modelled from the spec: `webbrowser.open(url)`, the external
browser-launch collaborator (§6); best-effort, it reports failure through
its Boolean return value and does not raise. -/
def webbrowser_open (env : Env) (_url : String) : Bool :=
  env.browserOk

/-- The HTML template text before the embedded timestamp. -/
def html_pre : String :=
  "\n        <!DOCTYPE html>\n        <html>\n        <head>\n" ++
  "            <title>Cloud Architecture Visualization</title>\n" ++
  "            <style>\n" ++
  "                body \x7b\n" ++
  "                    font-family: Arial, sans-serif;\n" ++
  "                    margin: 20px;\n" ++
  "                    background-color: #f5f5f5;\n" ++
  "                \x7d\n" ++
  "                .header \x7b\n" ++
  "                    text-align: center;\n" ++
  "                    color: #333;\n" ++
  "                    margin-bottom: 20px;\n" ++
  "                \x7d\n" ++
  "                .info \x7b\n" ++
  "                    background-color: white;\n" ++
  "                    padding: 15px;\n" ++
  "                    border-radius: 5px;\n" ++
  "                    margin-bottom: 20px;\n" ++
  "                    box-shadow: 0 2px 5px rgba(0,0,0,0.1);\n" ++
  "                \x7d\n" ++
  "                .chart-container \x7b\n" ++
  "                    background-color: white;\n" ++
  "                    border-radius: 5px;\n" ++
  "                    box-shadow: 0 2px 5px rgba(0,0,0,0.1);\n" ++
  "                    padding: 20px;\n" ++
  "                \x7d\n" ++
  "            </style>\n        </head>\n        <body>\n" ++
  "            <div class=\"header\">\n" ++
  "                <h1>☁️ Cloud Architecture Visualization</h1>\n" ++
  "                <p>Generated on "

/-- The HTML template text between the timestamp and the embedded plot
fragment. -/
def html_mid : String :=
  "</p>\n            </div>\n            \n" ++
  "            <div class=\"info\">\n" ++
  "                <h3>📋 Architecture Components:</h3>\n" ++
  "                <ul>\n" ++
  "                    <li><strong>Users:</strong> External clients accessing the system</li>\n" ++
  "                    <li><strong>CDN:</strong> Content Delivery Network for static assets</li>\n" ++
  "                    <li><strong>Load Balancer:</strong> Distributes incoming requests</li>\n" ++
  "                    <li><strong>Web Servers:</strong> Handle HTTP requests</li>\n" ++
  "                    <li><strong>App Server:</strong> Business logic processing</li>\n" ++
  "                    <li><strong>Database:</strong> Persistent data storage</li>\n" ++
  "                    <li><strong>Cache:</strong> Redis for fast data retrieval</li>\n" ++
  "                    <li><strong>Storage:</strong> File storage system</li>\n" ++
  "                    <li><strong>API Gateway:</strong> API management and routing</li>\n" ++
  "                </ul>\n            </div>\n            \n" ++
  "            <div class=\"chart-container\">\n                "

/-- The HTML template text after the embedded plot fragment. -/
def html_post : String :=
  "\n            </div>\n        </body>\n        </html>\n        "

/-- The `html_content` f-string of `main` (lines 247–304 of the source):
the fixed template around the embedded timestamp and plot fragment. -/
def html_content (timestamp plotDiv : String) : String :=
  html_pre ++ timestamp ++ html_mid ++ plotDiv ++ html_post

/-- The body of `main`'s `try` block (lines 226–318 of the source), run
until it completes or a step raises: returns the steps attempted, the
lines printed so far, the filesystem, and the raised exception if any. -/
def tryBody (env : Env) (fs : FS) : List Step × List String × FS × Option PyError :=
  match import_libraries env with
  | .error e => ([], [], fs, some e)
  | .ok _ =>
    let out0 := ["📊 Generating static diagram..."]
    match create_matplotlib_visualization.mapError PyError.exception with
    | .error e => ([.genStatic], out0, fs, some e)
    | .ok _figStatic =>
      let static_file := env.tempdir ++ "/cloud_architecture_static.png"
      match savefig env fs static_file with
      | .error e => ([.genStatic, .saveStatic], out0, fs, some e)
      | .ok fs1 =>
        let out1 := out0 ++ ["💾 Static diagram saved to: " ++ static_file,
                             "🌐 Generating interactive diagram..."]
        match create_interactive_visualization.mapError PyError.exception with
        | .error e => ([.genStatic, .saveStatic, .genInteractive], out1, fs1, some e)
        | .ok figInteractive =>
          let html_file := env.cwd ++ "/docs/index.html"
          let fs2 := makedirs_exist_ok fs1 (env.cwd ++ "/docs")
          let content := html_content env.timestamp (pyo_plot figInteractive)
          match write_text_file env fs2 html_file content with
          | .error e =>
            ([.genStatic, .saveStatic, .genInteractive, .makeDocsDir], out1, fs2, some e)
          | .ok fs3 =>
            let out2 := out1 ++ ["💾 Interactive diagram saved to: " ++ html_file,
                                 "🌐 Opening visualization in browser..."]
            let _launched := webbrowser_open env ("file://" ++ html_file)
            let out3 := out2 ++ ["✅ Visualization created successfully!",
                                 "📁 Files created:",
                                 "   - Static PNG: " ++ static_file,
                                 "   - Interactive HTML: " ++ html_file]
            ([.genStatic, .saveStatic, .genInteractive, .makeDocsDir, .writeHtml, .openBrowser],
             out3, fs3, none)

/-- The two `except` clauses of `main` (lines 320–325 of the source):
a missing-library report with a remediation hint, or a generic report. -/
def handleError : PyError → List String
  | .importError m => ["❌ Missing required library: " ++ m,
                       "📦 Please install required packages:",
                       "   pip install matplotlib networkx plotly"]
  | .exception m => ["❌ Error creating visualization: " ++ m]

/-- `main()` (lines 222–325 of the source): runs the `try` body and
handles any raised exception at the outermost level; always returns. -/
def main (env : Env) (fs : FS) : List Step × List String × FS :=
  let banner := "🚀 Creating Cloud Architecture Visualization..."
  match tryBody env fs with
  | (steps, out, fsN, none) => (steps, banner :: out, fsN)
  | (steps, out, fsN, some e) => (steps, banner :: (out ++ handleError e), fsN)

/-- Whether an `Except` computation succeeded. -/
def isOk : Except ε α → Bool
  | .ok _ => true
  | .error _ => false

/-- Environment constructor used in the theorems below. -/
def mkEnv (td cwd ts : String) (lib sfig hw bw : Bool) : Env :=
  ⟨td, cwd, ts, lib, sfig, hw, bw⟩

/-! ## Graph-construction and lookup lemmas -/

lemma ensure_node_mono {G : DiGraph} {m : String} (h : m ∈ G.nodeList) (n : String) :
    m ∈ (G.ensure_node n).nodeList := by
  unfold DiGraph.ensure_node
  split
  · exact h
  · exact List.mem_append_left _ h

lemma ensure_node_self (G : DiGraph) (n : String) : n ∈ (G.ensure_node n).nodeList := by
  unfold DiGraph.ensure_node
  split
  · assumption
  · exact List.mem_append_right _ (List.mem_singleton.mpr rfl)

lemma add_edge_nodeList (G : DiGraph) (e : String × String) :
    (G.add_edge e).nodeList = ((G.ensure_node e.1).ensure_node e.2).nodeList := by
  simp only [DiGraph.add_edge]
  split <;> rfl

lemma add_edge_mono {G : DiGraph} {m : String} (h : m ∈ G.nodeList) (e : String × String) :
    m ∈ (G.add_edge e).nodeList := by
  rw [add_edge_nodeList]
  exact ensure_node_mono (ensure_node_mono h e.1) e.2

lemma add_edge_mem_fst (G : DiGraph) (e : String × String) :
    e.1 ∈ (G.add_edge e).nodeList := by
  rw [add_edge_nodeList]
  exact ensure_node_mono (ensure_node_self G e.1) e.2

lemma add_edge_mem_snd (G : DiGraph) (e : String × String) :
    e.2 ∈ (G.add_edge e).nodeList := by
  rw [add_edge_nodeList]
  exact ensure_node_self _ e.2

lemma add_edges_from_cons (G : DiGraph) (e : String × String) (es : List (String × String)) :
    G.add_edges_from (e :: es) = (G.add_edge e).add_edges_from es := rfl

lemma add_edges_from_mono {m : String} (es : List (String × String)) :
    ∀ {G : DiGraph}, m ∈ G.nodeList → m ∈ (G.add_edges_from es).nodeList := by
  induction es with
  | nil => intro G h; exact h
  | cons e es ih =>
    intro G h
    rw [add_edges_from_cons]
    exact ih (add_edge_mono h e)

lemma add_edges_from_mem {es : List (String × String)} {p : String × String} (hp : p ∈ es) :
    ∀ (G : DiGraph),
      p.1 ∈ (G.add_edges_from es).nodeList ∧ p.2 ∈ (G.add_edges_from es).nodeList := by
  induction es with
  | nil => cases hp
  | cons e es ih =>
    intro G
    rw [add_edges_from_cons]
    cases hp with
    | head =>
      exact ⟨add_edges_from_mono es (add_edge_mem_fst G p),
             add_edges_from_mono es (add_edge_mem_snd G p)⟩
    | tail _ hp2 => exact ih hp2 (G.add_edge e)

lemma build_graph_mem {tbl : List (String × NodeAttrs)} {es : List (String × String)}
    {p : String × String} (hp : p ∈ es) :
    p.1 ∈ (build_graph tbl es).nodeList ∧ p.2 ∈ (build_graph tbl es).nodeList :=
  add_edges_from_mem hp _

lemma lookup_none_iff {tbl : List (String × NodeAttrs)} {n : String} :
    tbl.lookup n = none ↔ n ∉ tbl.map Prod.fst := by
  induction tbl with
  | nil => simp [List.lookup]
  | cons p t ih =>
    obtain ⟨k, v⟩ := p
    by_cases h : n = k
    · subst h
      simp [List.lookup]
    · have hbeq : (n == k) = false := by simp [h]
      simp only [List.lookup, hbeq]
      rw [ih]
      simp [h]

lemma get_colors_error {tbl : List (String × NodeAttrs)} :
    ∀ {ns : List String}, (∃ n ∈ ns, tbl.lookup n = none) →
      ∃ m, tbl.lookup m = none ∧ get_colors tbl ns = .error ("KeyError: " ++ m) := by
  intro ns
  induction ns with
  | nil => rintro ⟨n, hn, _⟩; cases hn
  | cons a l ih =>
    rintro ⟨n, hn, hlook⟩
    cases hf : tbl.lookup a with
    | none =>
      exact ⟨a, hf, by simp [get_colors, mapME, dictGet, hf, Bind.bind, Except.bind]⟩
    | some v =>
      have hnl : n ∈ l := by
        cases hn with
        | head => rw [hf] at hlook; cases hlook
        | tail _ h2 => exact h2
      obtain ⟨m, hm, hmap⟩ := ih ⟨n, hnl, hlook⟩
      refine ⟨m, hm, ?_⟩
      simp only [get_colors, dictGet, Bind.bind, Except.bind, Pure.pure, Except.pure] at hmap
      simp [get_colors, mapME, dictGet, hf, Bind.bind, Except.bind,
            Pure.pure, Except.pure, hmap]

/-! ## Helper lemmas about `main` -/

/-- The step trace of a fully successful run. -/
def success_steps : List Step :=
  [.genStatic, .saveStatic, .genInteractive, .makeDocsDir, .writeHtml, .openBrowser]

/-- The lines printed by a fully successful run. -/
def success_output (env : Env) : List String :=
  ["🚀 Creating Cloud Architecture Visualization...",
   "📊 Generating static diagram...",
   "💾 Static diagram saved to: " ++ (env.tempdir ++ "/cloud_architecture_static.png"),
   "🌐 Generating interactive diagram...",
   "💾 Interactive diagram saved to: " ++ (env.cwd ++ "/docs/index.html"),
   "🌐 Opening visualization in browser...",
   "✅ Visualization created successfully!",
   "📁 Files created:",
   "   - Static PNG: " ++ (env.tempdir ++ "/cloud_architecture_static.png"),
   "   - Interactive HTML: " ++ (env.cwd ++ "/docs/index.html")]

/-- The filesystem after a fully successful run. -/
def success_fs (env : Env) (fs : FS) (figI : PlotlyFigure) : FS :=
  { dirs := if (env.cwd ++ "/docs") ∈ fs.dirs then fs.dirs else fs.dirs ++ [env.cwd ++ "/docs"],
    files := (env.cwd ++ "/docs/index.html", html_content env.timestamp (pyo_plot figI)) ::
             (env.tempdir ++ "/cloud_architecture_static.png", "PNG") :: fs.files }

lemma exists_static_ok : ∃ f, create_matplotlib_visualization = .ok f := by
  cases h : create_matplotlib_visualization with
  | ok f => exact ⟨f, rfl⟩
  | error e =>
    have hok : isOk create_matplotlib_visualization = true := by with_unfolding_all rfl
    rw [h] at hok
    simp [isOk] at hok

set_option maxRecDepth 100000 in
lemma exists_interactive_ok : ∃ f, create_interactive_visualization = .ok f := by
  cases h : create_interactive_visualization with
  | ok f => exact ⟨f, rfl⟩
  | error e =>
    have hok : isOk create_interactive_visualization = true := by decide
    rw [h] at hok
    simp [isOk] at hok

/-- A run whose environment lets every effect succeed takes every step,
prints the success lines, and leaves exactly the two written files. -/
lemma main_success (env : Env) (fs : FS)
    (hlib : env.libsAvailable = true) (hsf : env.savefigOk = true)
    (hw : env.htmlWriteOk = true)
    {figI : PlotlyFigure} (hI : create_interactive_visualization = .ok figI) :
    main env fs = (success_steps, success_output env, success_fs env fs figI) := by
  obtain ⟨figS, hS⟩ := exists_static_ok
  simp [main, tryBody, import_libraries, hlib, hS, hI, Except.mapError,
        savefig, hsf, write_text_file, hw, makedirs_exist_ok,
        success_steps, success_output, success_fs]
  by_cases hd : (env.cwd ++ "/docs") ∈ fs.dirs <;> simp [hd]

/-! ## Theorems -/

set_option maxRecDepth 100000 in
/-- C1: both endpoints of each of the 13 fixed edges are keys of the node
table; and building the interactive graph over any edge list containing an
endpoint that is not a key of the node table fails with a `KeyError`
naming a missing identifier (raised by the color lookup over the graph's
nodes), rather than silently dropping the edge or producing a figure. -/
theorem claim_C1 :
    (∀ e ∈ edges, e.1 ∈ nodes.map Prod.fst ∧ e.2 ∈ nodes.map Prod.fst) ∧
    (∀ es : List (String × String),
      (∃ p ∈ es, p.1 ∉ nodes.map Prod.fst ∨ p.2 ∉ nodes.map Prod.fst) →
      ∃ n, n ∉ nodes.map Prod.fst ∧
        create_interactive_core nodes es = .error ("KeyError: " ++ n)) := by
  refine ⟨by decide, ?_⟩
  rintro es ⟨p, hp, hbad⟩
  have hG := @build_graph_mem nodes es p hp
  have hmemG : ∃ n ∈ (build_graph nodes es).nodeList, nodes.lookup n = none := by
    cases hbad with
    | inl h => exact ⟨p.1, hG.1, lookup_none_iff.mpr h⟩
    | inr h => exact ⟨p.2, hG.2, lookup_none_iff.mpr h⟩
  obtain ⟨m, hm, hmap⟩ := get_colors_error hmemG
  refine ⟨m, lookup_none_iff.mp hm, ?_⟩
  simp only [create_interactive_core]
  rw [hmap]
  rfl

set_option maxRecDepth 100000 in
/-- Witness for C1: a concrete in-table edge, and a concrete edge list
with one endpoint absent from the node table on which construction fails
with a `KeyError`. -/
theorem claim_C1_witness :
    (("users", "cdn").1 ∈ nodes.map Prod.fst ∧ ("users", "cdn").2 ∈ nodes.map Prod.fst) ∧
    ∃ n, n ∉ nodes.map Prod.fst ∧
      create_interactive_core nodes (edges ++ [("app_server", "message_queue")])
        = .error ("KeyError: " ++ n) :=
  ⟨claim_C1.1 ("users", "cdn") (by decide),
   claim_C1.2 (edges ++ [("app_server", "message_queue")])
     ⟨("app_server", "message_queue"), by decide, Or.inr (by decide)⟩⟩

set_option maxRecDepth 100000 in
/-- C2: the interactive figure renders exactly the keys of the node table
(10 identifiers, no duplicates, none missing) as nodes and exactly the
fixed edge list (13 pairs, no duplicates, none missing) as edges. -/
theorem claim_C2 :
    Except.map PlotlyFigure.nodeIds create_interactive_visualization
      = .ok (nodes.map Prod.fst) ∧
    Except.map PlotlyFigure.renderedEdges create_interactive_visualization
      = .ok edges ∧
    (nodes.map Prod.fst).Nodup ∧ (nodes.map Prod.fst).length = 10 ∧
    edges.Nodup ∧ edges.length = 13 :=
  ⟨by decide, by decide, by decide, by decide, by decide, by decide⟩

set_option maxRecDepth 100000 in
/-- C3: for every entry of the static component table the builder adds
exactly one filled, black-bordered rectangle at the entry's position and
size together with exactly one label centered in it, so there are exactly
as many component rectangles as table entries, namely 10. -/
theorem claim_C3 :
    Except.map (fun f => (f.componentRects, f.componentLabels)) create_matplotlib_visualization
      = .ok
        (components.map (fun c =>
          ⟨c.x, c.y, c.w, c.h, 2, "black", (static_colors.lookup c.color_key).getD "", "-", 0.7⟩),
         components.map (fun c =>
          ⟨c.x + c.w / 2, c.y + c.h / 2, c.label, "center", "center"⟩)) ∧
    Except.map (fun f => f.componentRects.length) create_matplotlib_visualization = .ok 10 ∧
    components.length = 10 :=
  ⟨by with_unfolding_all rfl, by with_unfolding_all rfl, by decide⟩

set_option maxRecDepth 100000 in
/-- C4: the builder draws exactly one arrow per entry of the fixed
connection table (12 of them), with endpoints taken verbatim from the
entry's literal coordinates; and the arrows produced by
`create_matplotlib_core` are `draw_connections conns` for every component
table whatsoever, hence never computed from any component rectangle's
geometry. -/
theorem claim_C4 :
    Except.map StaticFig.arrows create_matplotlib_visualization
      = .ok (connections.map (fun c => ⟨c.sx, c.sy, c.ex, c.ey, "darkgray", 1.5⟩)) ∧
    connections.length = 12 ∧
    ∀ (tbl : List (String × String)) (comps : List Component) (conns : List Conn),
      Except.map StaticFig.arrows (create_matplotlib_core tbl comps conns)
        = Except.map (fun _ => draw_connections conns) (create_matplotlib_core tbl comps conns) := by
  refine ⟨by with_unfolding_all rfl, by decide, ?_⟩
  intro tbl comps conns
  unfold create_matplotlib_core
  cases hm : mapME (draw_component tbl) comps with
  | error e => simp [Bind.bind, Except.bind, hm, Except.map]
  | ok pairs => simp [Bind.bind, Except.bind, hm, Except.map, Pure.pure, Except.pure]

set_option maxRecDepth 100000 in
/-- C9: every static component's category key is a key of the fixed
category→color mapping, and both builders succeed on their fixed tables,
so no color lookup in either builder raises. -/
theorem claim_C9 :
    (∀ c ∈ components, c.color_key ∈ static_colors.map Prod.fst) ∧
    isOk create_matplotlib_visualization = true ∧
    isOk create_interactive_visualization = true :=
  ⟨by decide, by with_unfolding_all rfl, by decide⟩

/-- Witness for C9 at a concrete component of the table. -/
theorem claim_C9_witness :
    (⟨1, 0.2, 1.2, 0.6, "Users", "user"⟩ : Component) ∈ components ∧
    (⟨1, 0.2, 1.2, 0.6, "Users", "user"⟩ : Component).color_key ∈ static_colors.map Prod.fst :=
  have hmem : (⟨1, 0.2, 1.2, 0.6, "Users", "user"⟩ : Component) ∈ components := by
    unfold components
    exact List.Mem.head _
  ⟨hmem, claim_C9.1 ⟨1, 0.2, 1.2, 0.6, "Users", "user"⟩ hmem⟩

/-- The attributes the fixed interactive node table assigns an
identifier (used to state per-index correspondence). -/
def attrOf (n : String) : NodeAttrs :=
  (nodes.lookup n).getD ⟨(0, 0), "", 0⟩

set_option maxRecDepth 100000 in
/-- C10: the node trace's x-coordinates, y-coordinates, marker colors,
marker sizes and hover labels all iterate the graph's nodes in the node
table's insertion order, so at every index all five derive from the same
node's table entry, and the hover label is that identifier with
underscores replaced by spaces and title-cased. -/
theorem claim_C10 :
    Except.map PlotlyFigure.nodeIds create_interactive_visualization
      = .ok (nodes.map Prod.fst) ∧
    Except.map PlotlyFigure.node_x create_interactive_visualization
      = .ok ((nodes.map Prod.fst).map (fun n => (attrOf n).pos.1)) ∧
    Except.map PlotlyFigure.node_y create_interactive_visualization
      = .ok ((nodes.map Prod.fst).map (fun n => (attrOf n).pos.2)) ∧
    Except.map PlotlyFigure.colors create_interactive_visualization
      = .ok ((nodes.map Prod.fst).map (fun n => (attrOf n).color)) ∧
    Except.map PlotlyFigure.sizes create_interactive_visualization
      = .ok ((nodes.map Prod.fst).map (fun n => (attrOf n).size)) ∧
    Except.map PlotlyFigure.text create_interactive_visualization
      = .ok ((nodes.map Prod.fst).map (fun n => pyTitle (underscoreToSpace n))) :=
  ⟨by decide, by decide, by decide, by decide, by decide, by decide⟩

/-- C5: two full runs differing only in their timestamps succeed
(in particular the second does not fail because the docs directory already
exists) and write HTML documents that are identical except for the
embedded timestamp. -/
theorem claim_C5 (td cwd t₁ t₂ : String) (b₁ b₂ : Bool) (fs : FS) :
    ("✅ Visualization created successfully!"
        ∈ (main (mkEnv td cwd t₂ true true true b₂)
            (main (mkEnv td cwd t₁ true true true b₁) fs).2.2).2.1) ∧
    ∃ pre post : String,
      (main (mkEnv td cwd t₁ true true true b₁) fs).2.2.files.lookup (cwd ++ "/docs/index.html")
        = some (pre ++ t₁ ++ post) ∧
      (main (mkEnv td cwd t₂ true true true b₂)
          (main (mkEnv td cwd t₁ true true true b₁) fs).2.2).2.2.files.lookup
          (cwd ++ "/docs/index.html")
        = some (pre ++ t₂ ++ post) := by
  obtain ⟨figI, hI⟩ := exists_interactive_ok
  have h1 := main_success (mkEnv td cwd t₁ true true true b₁) fs rfl rfl rfl hI
  have h2 := main_success (mkEnv td cwd t₂ true true true b₂)
      (main (mkEnv td cwd t₁ true true true b₁) fs).2.2 rfl rfl rfl hI
  refine ⟨?_, html_pre, html_mid ++ pyo_plot figI ++ html_post, ?_, ?_⟩
  · rw [h2]
    simp [success_output]
  · rw [h1]
    simp [success_fs, mkEnv, List.lookup, html_content, String.append_assoc]
  · rw [h2]
    simp [success_fs, mkEnv, List.lookup, html_content, String.append_assoc]

/-- C6: when the raster export fails, `main` reports the filesystem error
through its generic handler and returns normally; the run is fail-fast:
the interactive-diagram, directory-creation and HTML-writing steps are
never attempted and the filesystem is left unchanged. -/
theorem claim_C6 (td cwd t : String) (hw bw : Bool) (fs : FS) :
    (main (mkEnv td cwd t true false hw bw) fs).1 = [Step.genStatic, Step.saveStatic] ∧
    Step.genInteractive ∉ (main (mkEnv td cwd t true false hw bw) fs).1 ∧
    Step.makeDocsDir ∉ (main (mkEnv td cwd t true false hw bw) fs).1 ∧
    Step.writeHtml ∉ (main (mkEnv td cwd t true false hw bw) fs).1 ∧
    (main (mkEnv td cwd t true false hw bw) fs).2.2 = fs ∧
    ("❌ Error creating visualization: "
        ++ ("Permission denied: " ++ (td ++ "/cloud_architecture_static.png")))
      ∈ (main (mkEnv td cwd t true false hw bw) fs).2.1 := by
  obtain ⟨figS, hS⟩ := exists_static_ok
  simp [main, tryBody, import_libraries, mkEnv, hS, Except.mapError, savefig, handleError]

/-- C7: every run of `main` ends in exactly one of the recognized ways —
full success, a missing-library report with the remediation hint naming
the packages to install, or a generic error report — and in each case
`main` returns normally with its message printed. -/
theorem claim_C7 (env : Env) (fs : FS) :
    ("✅ Visualization created successfully!" ∈ (main env fs).2.1) ∨
    (("   pip install matplotlib networkx plotly" ∈ (main env fs).2.1) ∧
      ∃ m, ("❌ Missing required library: " ++ m) ∈ (main env fs).2.1) ∨
    (∃ m, ("❌ Error creating visualization: " ++ m) ∈ (main env fs).2.1) := by
  obtain ⟨figS, hS⟩ := exists_static_ok
  obtain ⟨figI, hI⟩ := exists_interactive_ok
  obtain ⟨td, cwd, ts, lib, sf, hw, bw⟩ := env
  cases lib with
  | false =>
    right; left
    refine ⟨?_, "No module named plotly", ?_⟩ <;>
      simp [main, tryBody, import_libraries, handleError]
  | true =>
    cases sf with
    | false =>
      right; right
      refine ⟨"Permission denied: " ++ (td ++ "/cloud_architecture_static.png"), ?_⟩
      simp [main, tryBody, import_libraries, hS, Except.mapError, savefig, handleError]
    | true =>
      cases hw with
      | false =>
        right; right
        refine ⟨"Permission denied: " ++ (cwd ++ "/docs/index.html"), ?_⟩
        simp [main, tryBody, import_libraries, hS, hI, Except.mapError, savefig,
              write_text_file, makedirs_exist_ok, handleError]
      | true =>
        left
        have h := main_success ⟨td, cwd, ts, true, true, true, bw⟩ fs rfl rfl rfl hI
        rw [h]
        simp [success_output]

/-- C8: the browser launch is best-effort — in an environment where it
fails (returns `false`), the run still takes every step, prints the
success lines and the file listing, and returns normally. -/
theorem claim_C8 (td cwd t : String) (fs : FS) :
    webbrowser_open (mkEnv td cwd t true true true false)
        ("file://" ++ (cwd ++ "/docs/index.html")) = false ∧
    (main (mkEnv td cwd t true true true false) fs).1 = success_steps ∧
    Step.openBrowser ∈ (main (mkEnv td cwd t true true true false) fs).1 ∧
    ("✅ Visualization created successfully!"
        ∈ (main (mkEnv td cwd t true true true false) fs).2.1) ∧
    ("📁 Files created:" ∈ (main (mkEnv td cwd t true true true false) fs).2.1) := by
  obtain ⟨figI, hI⟩ := exists_interactive_ok
  have h := main_success (mkEnv td cwd t true true true false) fs rfl rfl rfl hI
  rw [h]
  refine ⟨rfl, rfl, ?_, ?_, ?_⟩ <;> simp [success_steps, success_output]

end CloudViz
